import Mathlib

set_option maxHeartbeats 1000000
set_option autoImplicit false

/-
  Verification development for `sell_summary_report.py`.

  The Python source is shallowly embedded below.  Python values flowing
  through the aggregation are modelled by `PyVal` (ints, strings, lists,
  dicts with int-or-string keys, and `None`); fallible Python operations
  (subscripting, attribute access, `int(...)` coercion, arithmetic) are
  modelled in `Except String`, where `.error e` models an uncaught Python
  exception carrying message `e`.  `print` diagnostics are modelled as an
  accumulated `List String` of log lines.
-/

/-- A parsed point in time, mirroring Python `datetime.datetime`
(year, month, day, hour, minute, second, microsecond). -/
structure PyDateTime where
  year : Nat
  month : Nat
  day : Nat
  hour : Nat
  minute : Nat
  second : Nat
  usec : Nat
deriving DecidableEq, Repr

/-- Injective, order-preserving encoding of a (field-wise in-range) datetime;
`datetime` comparison in Python is lexicographic on the seven fields, which
this mixed-radix encoding reproduces. -/
def PyDateTime.key (d : PyDateTime) : Nat :=
  (((((d.year * 13 + d.month) * 32 + d.day) * 25 + d.hour) * 61 + d.minute) * 62 + d.second)
    * 1000000 + d.usec

/-- Python `datetime <` comparison. -/
def PyDateTime.lt (a b : PyDateTime) : Bool :=
  Nat.blt a.key b.key

/-- strptime directives occurring in the five formats used by the source:
literal characters, `%Y`, `%m`, `%d`, `%H`, `%M`, `%S`, `%f`, `%b`. -/
inductive Directive where
  | lit : Char → Directive
  | yr | mon | dayD | hr | mins | sec | frac | monAbbr
deriving DecidableEq, Repr

/-- Accumulator for the fields bound while matching one format
(defaults are strptime's: 1900-01-01 00:00:00.000000). -/
structure TimeAcc where
  y : Nat
  mo : Nat
  d : Nat
  h : Nat
  mi : Nat
  s : Nat
  us : Nat
deriving DecidableEq, Repr

def digitVal (c : Char) : Nat := c.toNat - 48

/-- CPython `_strptime` month pattern `1[0-2]|0[1-9]|[1-9]`,
alternatives in regex order. -/
def monthAlts : List Char → List (Nat × List Char)
  | c1 :: c2 :: rest =>
      (if c1 = '1' && '0' ≤ c2 && c2 ≤ '2' then [(10 + digitVal c2, rest)] else []) ++
      (if c1 = '0' && '1' ≤ c2 && c2 ≤ '9' then [(digitVal c2, rest)] else []) ++
      (if '1' ≤ c1 && c1 ≤ '9' then [(digitVal c1, c2 :: rest)] else [])
  | [c1] => if '1' ≤ c1 && c1 ≤ '9' then [(digitVal c1, [])] else []
  | [] => []

/-- CPython day pattern `3[01]|[12]\d|0[1-9]|[1-9]| [1-9]`. -/
def dayAlts : List Char → List (Nat × List Char)
  | c1 :: c2 :: rest =>
      (if c1 = '3' && '0' ≤ c2 && c2 ≤ '1' then [(30 + digitVal c2, rest)] else []) ++
      (if '1' ≤ c1 && c1 ≤ '2' && c2.isDigit then [(digitVal c1 * 10 + digitVal c2, rest)] else []) ++
      (if c1 = '0' && '1' ≤ c2 && c2 ≤ '9' then [(digitVal c2, rest)] else []) ++
      (if '1' ≤ c1 && c1 ≤ '9' then [(digitVal c1, c2 :: rest)] else []) ++
      (if c1 = ' ' && '1' ≤ c2 && c2 ≤ '9' then [(digitVal c2, rest)] else [])
  | [c1] => if '1' ≤ c1 && c1 ≤ '9' then [(digitVal c1, [])] else []
  | [] => []

/-- CPython hour pattern `2[0-3]|[0-1]\d|\d`. -/
def hourAlts : List Char → List (Nat × List Char)
  | c1 :: c2 :: rest =>
      (if c1 = '2' && '0' ≤ c2 && c2 ≤ '3' then [(20 + digitVal c2, rest)] else []) ++
      (if '0' ≤ c1 && c1 ≤ '1' && c2.isDigit then [(digitVal c1 * 10 + digitVal c2, rest)] else []) ++
      (if c1.isDigit then [(digitVal c1, c2 :: rest)] else [])
  | [c1] => if c1.isDigit then [(digitVal c1, [])] else []
  | [] => []

/-- CPython minute pattern `[0-5]\d|\d`. -/
def minuteAlts : List Char → List (Nat × List Char)
  | c1 :: c2 :: rest =>
      (if '0' ≤ c1 && c1 ≤ '5' && c2.isDigit then [(digitVal c1 * 10 + digitVal c2, rest)] else []) ++
      (if c1.isDigit then [(digitVal c1, c2 :: rest)] else [])
  | [c1] => if c1.isDigit then [(digitVal c1, [])] else []
  | [] => []

/-- CPython second pattern `6[0-1]|[0-5]\d|\d` (leap seconds are matched here
and rejected later by the `datetime` constructor). -/
def secondAlts : List Char → List (Nat × List Char)
  | c1 :: c2 :: rest =>
      (if c1 = '6' && '0' ≤ c2 && c2 ≤ '1' then [(60 + digitVal c2, rest)] else []) ++
      (if '0' ≤ c1 && c1 ≤ '5' && c2.isDigit then [(digitVal c1 * 10 + digitVal c2, rest)] else []) ++
      (if c1.isDigit then [(digitVal c1, c2 :: rest)] else [])
  | [c1] => if c1.isDigit then [(digitVal c1, [])] else []
  | [] => []

/-- Take exactly `k` leading digits as a microsecond value (right-padded to
six digits, as `_strptime` does for `%f`). -/
def fracTake (k : Nat) (cs : List Char) : List (Nat × List Char) :=
  let ds := cs.take k
  if ds.length = k && ds.all Char.isDigit then
    [(ds.foldl (fun n c => n * 10 + digitVal c) 0 * 10 ^ (6 - k), cs.drop k)]
  else []

/-- CPython `%f` pattern `[0-9]{1,6}`, greedy (longest take first). -/
def fracAlts (cs : List Char) : List (Nat × List Char) :=
  fracTake 6 cs ++ fracTake 5 cs ++ fracTake 4 cs ++ fracTake 3 cs ++
  fracTake 2 cs ++ fracTake 1 cs

/-- C-locale abbreviated month names used by `%b`. -/
def monthNames : List (List Char × Nat) :=
  [("jan".toList, 1), ("feb".toList, 2), ("mar".toList, 3), ("apr".toList, 4),
   ("may".toList, 5), ("jun".toList, 6), ("jul".toList, 7), ("aug".toList, 8),
   ("sep".toList, 9), ("oct".toList, 10), ("nov".toList, 11), ("dec".toList, 12)]

/-- `%b` matches an abbreviated month name, case-insensitively. -/
def monAbbrAlts (cs : List Char) : List (Nat × List Char) :=
  monthNames.filterMap fun p =>
    if (cs.take 3).map Char.toLower = p.1 then some (p.2, cs.drop 3) else none

/-- Candidate (updated accumulator, remaining input) pairs for one directive,
in the backtracking order of the compiled regex.  A whitespace literal in the
format matches a run of one or more whitespace characters (CPython replaces
`\s+` for whitespace in the format); other literals match exactly. -/
def candidates : Directive → TimeAcc → List Char → List (TimeAcc × List Char)
  | .lit c, acc, cs =>
      if c = ' ' then
        match cs with
        | c1 :: rest => if c1.isWhitespace then [(acc, rest.dropWhile Char.isWhitespace)] else []
        | [] => []
      else
        match cs with
        | c1 :: rest => if c1 = c then [(acc, rest)] else []
        | [] => []
  | .yr, acc, c1 :: c2 :: c3 :: c4 :: rest =>
      if c1.isDigit && c2.isDigit && c3.isDigit && c4.isDigit then
        [({acc with y := ((digitVal c1 * 10 + digitVal c2) * 10 + digitVal c3) * 10 + digitVal c4},
          rest)]
      else []
  | .yr, _, _ => []
  | .mon, acc, cs => (monthAlts cs).map fun p => ({acc with mo := p.1}, p.2)
  | .dayD, acc, cs => (dayAlts cs).map fun p => ({acc with d := p.1}, p.2)
  | .hr, acc, cs => (hourAlts cs).map fun p => ({acc with h := p.1}, p.2)
  | .mins, acc, cs => (minuteAlts cs).map fun p => ({acc with mi := p.1}, p.2)
  | .sec, acc, cs => (secondAlts cs).map fun p => ({acc with s := p.1}, p.2)
  | .frac, acc, cs => (fracAlts cs).map fun p => ({acc with us := p.1}, p.2)
  | .monAbbr, acc, cs => (monAbbrAlts cs).map fun p => ({acc with mo := p.1}, p.2)

/-- Match a whole format against the input with regex-style backtracking
(first candidate whose continuation fully matches wins); the input must be
consumed entirely (`strptime` raises on leftover data). -/
def matchFmt : List Directive → TimeAcc → List Char → Option TimeAcc
  | [], acc, cs => if cs.isEmpty then some acc else none
  | dir :: rest, acc, cs =>
      (candidates dir acc cs).findSome? fun p => matchFmt rest p.1 p.2

/-- Days in a month, with Gregorian leap years (as Python's `datetime`). -/
def daysInMonth (y m : Nat) : Nat :=
  if m = 2 then (if y % 4 = 0 && (y % 100 != 0 || y % 400 = 0) then 29 else 28)
  else if m = 4 || m = 6 || m = 9 || m = 11 then 30 else 31

/-- The `datetime(...)` constructor's range validation (this is where
out-of-range days such as Feb 30, and leap seconds, are rejected). -/
def mkDateTime (a : TimeAcc) : Option PyDateTime :=
  if 1 ≤ a.y && a.y ≤ 9999 && 1 ≤ a.mo && a.mo ≤ 12 && 1 ≤ a.d && a.d ≤ daysInMonth a.y a.mo
      && a.h ≤ 23 && a.mi ≤ 59 && a.s ≤ 59 && a.us ≤ 999999 then
    some ⟨a.y, a.mo, a.d, a.h, a.mi, a.s, a.us⟩
  else none

/-- `datetime.strptime(s, fmt)` for the directive subset above: `some` on
success, `none` for a `ValueError` (no match, leftover input, or range
validation failure). -/
def strptime5 (s : String) (fmt : List Directive) : Option PyDateTime :=
  match matchFmt fmt ⟨1900, 1, 1, 0, 0, 0, 0⟩ s.toList with
  | some acc => mkDateTime acc
  | none => none

/-- Format `'%Y-%m-%d %H:%M:%S.%f'`. -/
def fmtYmdHMSf : List Directive :=
  [.yr, .lit '-', .mon, .lit '-', .dayD, .lit ' ', .hr, .lit ':', .mins, .lit ':', .sec,
   .lit '.', .frac]

/-- Format `'%Y-%m-%d %H:%M:%S'`. -/
def fmtYmdHMS : List Directive :=
  [.yr, .lit '-', .mon, .lit '-', .dayD, .lit ' ', .hr, .lit ':', .mins, .lit ':', .sec]

/-- Format `'%d-%m-%Y %H:%M:%S'`. -/
def fmtDmYHMS : List Directive :=
  [.dayD, .lit '-', .mon, .lit '-', .yr, .lit ' ', .hr, .lit ':', .mins, .lit ':', .sec]

/-- Format `'%m/%d/%Y %H:%M:%S'`. -/
def fmtMdYHMS : List Directive :=
  [.mon, .lit '/', .dayD, .lit '/', .yr, .lit ' ', .hr, .lit ':', .mins, .lit ':', .sec]

/-- Format `'%d-%b-%Y %H:%M:%S'`. -/
def fmtDbYHMS : List Directive :=
  [.dayD, .lit '-', .monAbbr, .lit '-', .yr, .lit ' ', .hr, .lit ':', .mins, .lit ':', .sec]

/-- The five formats, in the order tried by `parse_order_time`. -/
def formats : List (List Directive) :=
  [fmtYmdHMSf, fmtYmdHMS, fmtDmYHMS, fmtMdYHMS, fmtDbYHMS]

/-- First format in the list that parses `s` wins. -/
def firstParse (s : String) : List (List Directive) → Option PyDateTime
  | [] => none
  | f :: fs =>
      match strptime5 s f with
      | some dt => some dt
      | none => firstParse s fs

/-- Python dictionary keys appearing in the feeds: integers or strings
(Python's `100` and `"100"` are distinct keys). -/
inductive Key where
  | int : Int → Key
  | str : String → Key
deriving DecidableEq, Repr

/-- Python values flowing through the aggregation. -/
inductive PyVal where
  | none : PyVal
  | int : Int → PyVal
  | str : String → PyVal
  | list : List PyVal → PyVal
  | dict : List (Key × PyVal) → PyVal

/-- `f"{k}"` / `str(k)` for a dict key. -/
def Key.display : Key → String
  | .int n => toString n
  | .str s => s

/-- View a key as a value (as when iterating a dict). -/
def Key.toVal : Key → PyVal
  | .int n => .int n
  | .str s => .str s

/-- Python truthiness (`bool(v)`). -/
def PyVal.truthy : PyVal → Bool
  | .none => false
  | .int n => n != 0
  | .str s => s != ""
  | .list l => !l.isEmpty
  | .dict d => !d.isEmpty

def PyVal.isNone : PyVal → Bool
  | .none => true
  | _ => false

def PyVal.isInt : PyVal → Bool
  | .int _ => true
  | _ => false

/-- The integer under a `PyVal.int` (unused branch value 0 elsewhere). -/
def PyVal.intOf : PyVal → Int
  | .int n => n
  | _ => 0

/-- First-key-wins association-list lookup (Python dicts have unique keys,
so inputs modelling real dicts carry no duplicate keys). -/
def lookupA {κ α : Type} [DecidableEq κ] : List (κ × α) → κ → Option α
  | [], _ => Option.none
  | (k, v) :: rest, q => if k = q then some v else lookupA rest q

/-- `d[k] = v`: replace in place if the key is present, else append. -/
def insertA {κ α : Type} [DecidableEq κ] : List (κ × α) → κ → α → List (κ × α)
  | [], k, v => [(k, v)]
  | (k', v') :: rest, k, v =>
      if k' = k then (k, v) :: rest else (k', v') :: insertA rest k v

/-- `x or y` (Python returns the first truthy operand, else the second). -/
def pyOr (a b : PyVal) : PyVal :=
  if a.truthy then a else b

/-- The `.get` method of dicts; on any non-dict it models the
`AttributeError` Python raises. -/
def pyGet : PyVal → String → PyVal → Except String PyVal
  | .dict kvs, k, dflt => .ok ((lookupA kvs (.str k)).getD dflt)
  | _, k, _ => .error ("AttributeError: get " ++ k)

/-- Subscripting `v[k]` with a string key: `KeyError` on a dict without the
key, `TypeError` on non-dicts. -/
def getItem : PyVal → String → Except String PyVal
  | .dict kvs, k =>
      match lookupA kvs (.str k) with
      | some v => .ok v
      | Option.none => .error ("KeyError: " ++ k)
  | _, k => .error ("TypeError: subscript " ++ k)

/-- The `.items()` method (`AttributeError` on non-dicts). -/
def pyItems : PyVal → Except String (List (Key × PyVal))
  | .dict kvs => .ok kvs
  | _ => .error "AttributeError: items"

/-- `for x in v`: lists yield elements, dicts yield keys, strings yield
characters; ints and `None` are not iterable (`TypeError`). -/
def pyIter : PyVal → Except String (List PyVal)
  | .list l => .ok l
  | .dict kvs => .ok (kvs.map fun p => p.1.toVal)
  | .str s => .ok (s.toList.map fun c => .str (String.singleton c))
  | _ => .error "TypeError: not iterable"

/-- Digits of a decimal literal. -/
def digitsToNat : List Char → Option Nat
  | [] => Option.none
  | cs => if cs.all Char.isDigit then some (cs.foldl (fun n c => n * 10 + digitVal c) 0)
          else Option.none

/-- Strip leading and trailing whitespace from a character list. -/
def charsTrim (cs : List Char) : List Char :=
  ((cs.dropWhile Char.isWhitespace).reverse.dropWhile Char.isWhitespace).reverse

/-- `int(s)` on a string: surrounding whitespace stripped, optional sign,
then decimal digits (the underscore-separator extension is not modelled). -/
def pyStrToInt (s : String) : Option Int :=
  match charsTrim s.toList with
  | '+' :: ds => (digitsToNat ds).map Int.ofNat
  | '-' :: ds => (digitsToNat ds).map fun n => -(n : Int)
  | ds => (digitsToNat ds).map Int.ofNat

/-- `int(v)`: identity on ints, string parsing on strings (`ValueError` on a
bad literal), `TypeError` otherwise. -/
def pyToInt : PyVal → Except String Int
  | .int n => .ok n
  | .str s =>
      match pyStrToInt s with
      | some n => .ok n
      | Option.none => .error ("ValueError: invalid literal for int: " ++ s)
  | _ => .error "TypeError: int argument"

/-- ASCII uppercasing, character by character (the source's order statuses
are ASCII). -/
def strUpper (s : String) : String :=
  ⟨s.toList.map Char.toUpper⟩

/-- `.upper()` (`AttributeError` on non-strings). -/
def pyUpper : PyVal → Except String String
  | .str s => .ok (strUpper s)
  | _ => .error "AttributeError: upper"

/-- Python `x - y` with an integer right operand (`TypeError` unless the left
operand is an int too; no implicit coercion). -/
def pySub : PyVal → Int → Except String PyVal
  | .int a, b => .ok (.int (a - b))
  | _, _ => .error "TypeError: unsupported operand type for -"

/-- Python `x + y` as used by the pandas object-column reduction:
int + int and str + str, `TypeError` otherwise. -/
def pyAdd : PyVal → PyVal → Except String PyVal
  | .int a, .int b => .ok (.int (a + b))
  | .str a, .str b => .ok (.str (a ++ b))
  | _, _ => .error "TypeError: unsupported operand type for +"

/-- `parse_order_time` (src lines 6-20): the five formats are tried in order
inside `try/except ValueError`; on total failure one warning is printed and
`None` is returned.  Called with a non-string (possible since the argument
comes from `.get`), the first `strptime` call raises a `TypeError`, which is
not `ValueError` and so propagates. -/
def parse_order_time : PyVal → Except String (Option PyDateTime × List String)
  | .str s =>
      match firstParse s formats with
      | some dt => .ok (some dt, [])
      | Option.none =>
          .ok (Option.none, ["Warning: Failed to parse timestamp \x27" ++ s ++ "\x27"])
  | _ => .error "TypeError: strptime argument must be str"

/-- One entry of the normalized `live_positions` map (values stored verbatim,
no numeric coercion in the source). -/
structure PosEntry where
  tradingSymbol : PyVal
  quantity : PyVal

/-- One entry of the normalized `holdings` map. -/
structure HoldEntry where
  quantity : PyVal
  buyAvgPrice : PyVal

/-- Per-instrument order sums (`defaultdict` inner value). -/
structure OrderAgg where
  executed : Int
  opnQty : Int
  rejQty : Int
deriving DecidableEq, Repr

def PosMap := List (Int × PosEntry)
def HoldMap := List (Int × HoldEntry)
def OrderMap := List (Int × OrderAgg)

/-- `defaultdict` access-and-update: the entry is created as all-zero if
absent, then `f` is applied to it. -/
def bumpWith : OrderMap → Int → (OrderAgg → OrderAgg) → OrderMap
  | [], n, f => [(n, f ⟨0, 0, 0⟩)]
  | (k, a) :: rest, n, f =>
      if k = n then (n, f a) :: rest else (k, a) :: bumpWith rest n f

/-- Fold a per-record step over a feed, accumulating logs; a step returning
`.error` models an exception escaping the per-record handling (fatal). -/
def foldRecords {σ α : Type} (step : σ → α → Except String (σ × List String)) :
    σ × List String → List α → Except String (σ × List String)
  | (st, logs), [] => .ok (st, logs)
  | (st, logs), x :: xs =>
      match step st x with
      | .error e => .error e
      | .ok (st2, l2) => foldRecords step (st2, logs ++ l2) xs

/-- `'success'` comparison against the value of the `type` tag. -/
def isSuccessVal : PyVal → Bool
  | .str s => s == "success"
  | _ => false

/-- The first-truthy-wins instrument-id projection for a position record
(src lines 57-59). -/
def posInstVal (kvs : List (Key × PyVal)) : PyVal :=
  pyOr ((lookupA kvs (.str "ExchangeInstrumentID")).getD .none)
    (pyOr ((lookupA kvs (.str "ExchangeNSEInstrumentID")).getD .none)
      ((lookupA kvs (.str "ExchangeNSEInstrumentId")).getD .none))

/-- The instrument-id projection for a holding record (src lines 74-75). -/
def holdInstVal (kvs : List (Key × PyVal)) : PyVal :=
  pyOr ((lookupA kvs (.str "ExchangeNSEInstrumentID")).getD .none)
    ((lookupA kvs (.str "ExchangeNSEInstrumentId")).getD .none)

/-- One iteration of the position loop (src lines 56-68).  The id projection
runs outside the `try` (a non-dict record is fatal); only the body from
`int(inst_id)` on is guarded, logging and skipping the record on error.
`TradingSymbol` and `Quantity` are taken verbatim with defaults, never
coerced. -/
def processPosRecord (cid : String) (st : PosMap) (pos : PyVal) :
    Except String (PosMap × List String) :=
  match pos with
  | .dict kvs =>
      let instv := posInstVal kvs
      if instv.truthy then
        match pyToInt instv with
        | .ok n =>
            .ok (insertA st n
              ⟨(lookupA kvs (.str "TradingSymbol")).getD (.str "N/A"),
               (lookupA kvs (.str "Quantity")).getD (.int 0)⟩, [])
        | .error e => .ok (st, ["Error processing position for " ++ cid ++ ": " ++ e])
      else .ok (st, [])
  | _ => .error "AttributeError: get ExchangeInstrumentID"

/-- Processing of the positions response (src lines 54-68): a non-`success`
tag yields an empty map; under `success`, `response['result']` is subscripted
(KeyError propagates) and `positionList` defaults to `[]`. -/
def processPositionsResp (cid : String) (resp : PyVal) :
    Except String (PosMap × List String) :=
  match pyGet resp "type" .none with
  | .error e => .error e
  | .ok t =>
      if isSuccessVal t then
        match getItem resp "result" with
        | .error e => .error e
        | .ok result =>
            match pyGet result "positionList" (.list []) with
            | .error e => .error e
            | .ok plist =>
                match pyIter plist with
                | .error e => .error e
                | .ok recs => foldRecords (processPosRecord cid) ([], []) recs
      else .ok ([], [])

/-- One iteration of the holdings loop (src lines 73-84); same shape as the
position loop, with candidate id fields `ExchangeNSEInstrumentID` /
`ExchangeNSEInstrumentId` and verbatim `HoldingQuantity` / `BuyAvgPrice`. -/
def processHoldRecord (cid : String) (st : HoldMap) (pair : Key × PyVal) :
    Except String (HoldMap × List String) :=
  match pair.2 with
  | .dict kvs =>
      let instv := holdInstVal kvs
      if instv.truthy then
        match pyToInt instv with
        | .ok n =>
            .ok (insertA st n
              ⟨(lookupA kvs (.str "HoldingQuantity")).getD (.int 0),
               (lookupA kvs (.str "BuyAvgPrice")).getD (.int 0)⟩, [])
        | .error e => .ok (st, ["Error processing holding for " ++ cid ++ ": " ++ e])
      else .ok (st, [])
  | _ => .error "AttributeError: get ExchangeNSEInstrumentID"

/-- Processing of the holdings response (src lines 71-84): under a `success`
tag the source subscripts `['result']['RMSHoldings']['Holdings']` directly
(no `.get`, no `try`), so a missing level raises out of the whole run. -/
def processHoldingsResp (cid : String) (resp : PyVal) :
    Except String (HoldMap × List String) :=
  match pyGet resp "type" .none with
  | .error e => .error e
  | .ok t =>
      if isSuccessVal t then
        match getItem resp "result" with
        | .error e => .error e
        | .ok result =>
            match getItem result "RMSHoldings" with
            | .error e => .error e
            | .ok rms =>
                match getItem rms "Holdings" with
                | .error e => .error e
                | .ok hds =>
                    match pyItems hds with
                    | .error e => .error e
                    | .ok items => foldRecords (processHoldRecord cid) ([], []) items
      else .ok ([], [])

/-- The order-status dispatch (src lines 103-108): `FILLED`, `OPEN` and
`REJECTED` bump the matching sum; any other status leaves the map unchanged. -/
def applyStatus (st : OrderMap) (n : Int) (status : String) (q : Int) : OrderMap :=
  if status = "FILLED" then bumpWith st n fun a => {a with executed := a.executed + q}
  else if status = "OPEN" then bumpWith st n fun a => {a with opnQty := a.opnQty + q}
  else if status = "REJECTED" then bumpWith st n fun a => {a with rejQty := a.rejQty + q}
  else st

/-- One iteration of the order loop (src lines 90-110); the whole body is
inside `try`, so any exception is logged and the order skipped.  Note the
parse warning (when all formats fail) is printed in the same branch that
skips the order, so no printed output is lost to a later exception. -/
def processOrderRecord (cid : String) (start : PyDateTime) (st : OrderMap) (order : PyVal) :
    Except String (OrderMap × List String) :=
  let inner : Except String (OrderMap × List String) :=
    match order with
    | .dict kvs =>
        match parse_order_time ((lookupA kvs (.str "OrderDateTime")).getD (.str "")) with
        | .error e => .error e
        | .ok (Option.none, w) => .ok (st, w)
        | .ok (some ot, w) =>
            if ot.lt start then .ok (st, w)
            else
              match pyToInt ((lookupA kvs (.str "ExchangeInstrumentID")).getD (.int 0)) with
              | .error e => .error e
              | .ok n =>
                  if n = 0 then .ok (st, w)
                  else
                    match pyUpper ((lookupA kvs (.str "OrderStatus")).getD (.str "")) with
                    | .error e => .error e
                    | .ok status =>
                        match pyToInt ((lookupA kvs (.str "OrderQuantity")).getD (.int 0)) with
                        | .error e => .error e
                        | .ok q => .ok (applyStatus st n status q, w)
    | _ => .error "AttributeError: get OrderDateTime"
  match inner with
  | .ok r => .ok r
  | .error e => .ok (st, ["Error processing order for " ++ cid ++ ": " ++ e])

/-- Processing of the order-book response (src lines 87-110):
`orders = response.get('result', []) if response.get('type') == 'success' else []`,
then a fold of the guarded per-order step. -/
def processOrdersResp (cid : String) (start : PyDateTime) (resp : PyVal) :
    Except String (OrderMap × List String) :=
  match pyGet resp "type" .none with
  | .error e => .error e
  | .ok t =>
      match (if isSuccessVal t then pyGet resp "result" (.list []) else .ok (.list [])) with
      | .error e => .error e
      | .ok orders =>
          match pyIter orders with
          | .error e => .error e
          | .ok recs => foldRecords (processOrderRecord cid start) ([], []) recs

/-- One summary row, as appended at src lines 121-130. -/
structure SummaryRow where
  instrument : PyVal
  target : PyVal
  executed : Int
  opnQty : Int
  rejQty : Int
  livePos : PyVal
  holdingQty : PyVal
  remaining : PyVal

/-- Building one instrument's row (the `try` body, src lines 115-130):
coerce the configured id, resolve the display name with the `ID:<id>`
fallback, read the three maps with all-zero defaults, and compute
`remaining = holding_qty - executed` (a `TypeError` here escapes to the
per-instrument handler). -/
def build_instrument_row (stocks : List (Key × PyVal)) (om : OrderMap) (pm : PosMap)
    (hm : HoldMap) (exId : Key) (tgt : PyVal) : Except String SummaryRow :=
  match pyToInt exId.toVal with
  | .error e => .error e
  | .ok n =>
      match pyGet ((lookupA stocks (.int n)).getD (.dict [])) "name"
          (.str ("ID:" ++ exId.display)) with
      | .error e => .error e
      | .ok nameV =>
          let od := (lookupA om n).getD ⟨0, 0, 0⟩
          let lq := ((lookupA pm n).map PosEntry.quantity).getD (.int 0)
          let hq := ((lookupA hm n).map HoldEntry.quantity).getD (.int 0)
          match pySub hq od.executed with
          | .error e => .error e
          | .ok rem => .ok ⟨nameV, tgt, od.executed, od.opnQty, od.rejQty, lq, hq, rem⟩

/-- The per-client row loop (src lines 113-132): one guarded build per
configured `(instrument id, target)` pair, in configuration order; a failing
build logs and skips that instrument only. -/
def buildRows (cid : String) (stocks : List (Key × PyVal)) (om : OrderMap) (pm : PosMap)
    (hm : HoldMap) : List (Key × PyVal) → List SummaryRow × List String
  | [] => ([], [])
  | (k, v) :: rest =>
      let r := buildRows cid stocks om pm hm rest
      match build_instrument_row stocks om pm hm k v with
      | .ok row => (row :: r.1, r.2)
      | .error e =>
          (r.1, ("Error processing instrument " ++ k.display ++ " for " ++ cid ++ ": " ++ e)
            :: r.2)

/-- One client's API handle: the three feed calls, each either returning a
response payload or raising. -/
structure ClientApi where
  orderBook : Except String PyVal
  positionDaywise : Except String PyVal
  holdingResp : Except String PyVal

/-- The fetch block (src lines 45-48): the three calls run in order and the
first raise aborts the block. -/
def fetch3 (api : ClientApi) : Except String (PyVal × PyVal × PyVal) :=
  match api.orderBook with
  | .error e => .error e
  | .ok ob =>
      match api.positionDaywise with
      | .error e => .error e
      | .ok pr =>
          match api.holdingResp with
          | .error e => .error e
          | .ok hr => .ok (ob, pr, hr)

/-- Processing of one client (the loop body, src lines 37-134): `none` means
the client was skipped (no API handle, or a fetch raised) and contributes no
entry; `.error` models an exception escaping the loop body (fatal to the
run). -/
def processClient (start : PyDateTime) (stocks : List (Key × PyVal))
    (apis : List (String × ClientApi)) (cid : String) (params : PyVal) :
    Except String (Option (List SummaryRow) × List String) :=
  match lookupA apis (cid : String) with
  | Option.none => .ok (Option.none, ["API not found for client " ++ cid])
  | some api =>
      match fetch3 api with
      | .error e => .ok (Option.none, ["Error fetching data for " ++ cid ++ ": " ++ e])
      | .ok (ob, pr, hr) =>
          match processPositionsResp cid pr with
          | .error e => .error e
          | .ok (pm, l1) =>
              match processHoldingsResp cid hr with
              | .error e => .error e
              | .ok (hm, l2) =>
                  match processOrdersResp cid start ob with
                  | .error e => .error e
                  | .ok (om, l3) =>
                      match pyGet params "total_quantity_to_sell" (.dict []) with
                      | .error e => .error e
                      | .ok cfg =>
                          match pyItems cfg with
                          | .error e => .error e
                          | .ok items =>
                              let r := buildRows cid stocks om pm hm items
                              .ok (some r.1, l1 ++ l2 ++ l3 ++ r.2)

/-- `generate_summary_data_sell` (src lines 22-136): the sequential client
loop; a skipped client adds no entry to `summary_data`, a successfully
processed client adds `client_id → its rows` (even when empty). -/
def generate_summary_data_sell (client_details : List (String × PyVal))
    (order_start_time : PyDateTime) (stock_details : List (Key × PyVal))
    (client_apis : List (String × ClientApi)) :
    Except String (List (String × List SummaryRow) × List String) :=
  match client_details with
  | [] => .ok ([], [])
  | (cid, params) :: rest =>
      match processClient order_start_time stock_details client_apis cid params with
      | .error e => .error e
      | .ok (opt, lg) =>
          match generate_summary_data_sell rest order_start_time stock_details client_apis with
          | .error e => .error e
          | .ok (out, lgs) =>
              match opt with
              | Option.none => .ok (out, lg ++ lgs)
              | some rows => .ok ((cid, rows) :: out, lg ++ lgs)

/-- The pandas column sum `df[c].sum()` on an object column: `None` entries
are skipped (`skipna`), the empty sum is the integer 0, and the rest is a
left reduction with `+`. -/
def reduceAdd : PyVal → List PyVal → Except String PyVal
  | acc, [] => .ok acc
  | acc, v :: vs =>
      match pyAdd acc v with
      | .error e => .error e
      | .ok acc2 => reduceAdd acc2 vs

def colSum (col : List PyVal) : Except String PyVal :=
  match col.filter (fun v => !v.isNone) with
  | [] => .ok (.int 0)
  | v :: vs => reduceAdd v vs

/-- The `TOTAL` row built at src lines 153-162. -/
structure TotalsRow where
  instrument : PyVal
  target : PyVal
  executed : PyVal
  opnQty : PyVal
  rejQty : PyVal
  livePos : PyVal
  holdingQty : PyVal
  remaining : PyVal

/-- The totals computation of `export_summary_to_excel_sell` for one client
(src lines 146-163).  A client with zero rows yields an empty `DataFrame`
with no columns at all, so the very first column access `df['Target']`
raises a `KeyError`; with at least one row every row dict carries all eight
keys, so each column exists and is summed. -/
def totals_row (rows : List SummaryRow) : Except String TotalsRow :=
  match rows with
  | [] => .error "KeyError: Target"
  | _ =>
      match colSum (rows.map SummaryRow.target) with
      | .error e => .error e
      | .ok t =>
          match colSum (rows.map fun r => PyVal.int r.executed) with
          | .error e => .error e
          | .ok ex =>
              match colSum (rows.map fun r => PyVal.int r.opnQty) with
              | .error e => .error e
              | .ok op =>
                  match colSum (rows.map fun r => PyVal.int r.rejQty) with
                  | .error e => .error e
                  | .ok rj =>
                      match colSum (rows.map SummaryRow.livePos) with
                      | .error e => .error e
                      | .ok lv =>
                          match colSum (rows.map SummaryRow.holdingQty) with
                          | .error e => .error e
                          | .ok hd =>
                              match colSum (rows.map SummaryRow.remaining) with
                              | .error e => .error e
                              | .ok rm => .ok ⟨.str "TOTAL", t, ex, op, rj, lv, hd, rm⟩

/-- The totals rows of the whole export, one per client in `summary_data`
order; the first client whose totals computation raises aborts the export
(the exception propagates out of the `with` block). -/
def export_totals : List (String × List SummaryRow) → Except String (List (String × TotalsRow))
  | [] => .ok []
  | (cid, rows) :: rest =>
      match totals_row rows with
      | .error e => .error e
      | .ok t =>
          match export_totals rest with
          | .error e => .error e
          | .ok ts => .ok ((cid, t) :: ts)

/-- `Except.ok` projection used to relate `buildRows` to its per-item
builder. -/
def exceptOk {α : Type} : Except String α → Option α
  | .ok a => some a
  | .error _ => Option.none

theorem exceptOk_ok {α : Type} (a : α) : exceptOk (.ok a) = some a := rfl

theorem exceptOk_error {α : Type} (e : String) : exceptOk (.error e : Except String α) = Option.none := rfl

/-- A cutoff used by the concrete scenarios: 2024-02-13 09:00:00. -/
def dtCut : PyDateTime := ⟨2024, 2, 13, 9, 0, 0, 0⟩

/-- A non-`success` response. -/
def respFail : PyVal := .dict [(.str "type", .str "failure")]

/-- Target configuration `{'total_quantity_to_sell': {100: 50}}`. -/
def cfg100 : PyVal :=
  .dict [(.str "total_quantity_to_sell", .dict [(.int 100, .int 50)])]

/-- Order book: one FILLED order for instrument 100, quantity 20, after the
cutoff. -/
def respOrders100 : PyVal :=
  .dict [(.str "type", .str "success"),
         (.str "result", .list [.dict
           [(.str "OrderDateTime", .str "2024-02-13 10:30:00"),
            (.str "ExchangeInstrumentID", .int 100),
            (.str "OrderStatus", .str "FILLED"),
            (.str "OrderQuantity", .int 20)]])]

/-- Positions: success with an empty `positionList`. -/
def respPosEmpty : PyVal :=
  .dict [(.str "type", .str "success"),
         (.str "result", .dict [(.str "positionList", .list [])])]

/-- Holdings: instrument 100 with holding quantity 80. -/
def respHold100 : PyVal :=
  .dict [(.str "type", .str "success"),
         (.str "result", .dict [(.str "RMSHoldings", .dict [(.str "Holdings", .dict
           [(.str "ISIN1", .dict
             [(.str "ExchangeNSEInstrumentID", .int 100),
              (.str "HoldingQuantity", .int 80)])])])])]

def apiScenario : ClientApi := ⟨.ok respOrders100, .ok respPosEmpty, .ok respHold100⟩

/-- Holdings response with a `success` tag but a payload missing the
`RMSHoldings` level. -/
def respHoldMalformed : PyVal :=
  .dict [(.str "type", .str "success"), (.str "result", .dict [])]

def apiMalformedHold : ClientApi := ⟨.ok respFail, .ok respFail, .ok respHoldMalformed⟩

/-- Positions response whose record has a non-coercible `Quantity`. -/
def respPosBadQty : PyVal :=
  .dict [(.str "type", .str "success"),
         (.str "result", .dict [(.str "positionList", .list [.dict
           [(.str "ExchangeInstrumentID", .int 5),
            (.str "Quantity", .str "abc")]])])]

/-- Holdings response whose record has a non-coercible `HoldingQuantity` for
configured instrument 100. -/
def respHoldBadQty : PyVal :=
  .dict [(.str "type", .str "success"),
         (.str "result", .dict [(.str "RMSHoldings", .dict [(.str "Holdings", .dict
           [(.str "ISIN1", .dict
             [(.str "ExchangeNSEInstrumentID", .int 100),
              (.str "HoldingQuantity", .str "abc")])])])])]

def apiBadHoldQty : ClientApi := ⟨.ok respFail, .ok respFail, .ok respHoldBadQty⟩

/-- An API handle whose first feed call raises. -/
def apiFetchErr : ClientApi := ⟨.error "boom", .ok respFail, .ok respFail⟩

example :
    generate_summary_data_sell [("A", cfg100)] dtCut [] [("A", apiScenario)] =
      .ok ([("A", [⟨.str "ID:100", .int 50, 20, 0, 0, .int 0, .int 80, .int 60⟩])], []) := by
  rfl

example :
    generate_summary_data_sell [("A", cfg100)] dtCut [] [("A", apiMalformedHold)] =
      .error "KeyError: RMSHoldings" := by
  rfl

example :
    processPositionsResp "A" respPosBadQty = .ok ([(5, ⟨.str "N/A", .str "abc"⟩)], []) := by
  rfl

example :
    generate_summary_data_sell [("A", cfg100)] dtCut [] [("A", apiBadHoldQty)] =
      .ok ([("A", [])],
        ["Error processing instrument 100 for A: TypeError: unsupported operand type for -"]) := by
  rfl

example : totals_row [] = .error "KeyError: Target" := by rfl

example :
    totals_row [⟨.str "ID:100", .int 50, 20, 0, 0, .int 0, .int 80, .int 60⟩,
                ⟨.str "X", .int 7, 5, 1, 2, .int 3, .int 10, .int 5⟩] =
      .ok ⟨.str "TOTAL", .int 57, .int 25, .int 1, .int 2, .int 3, .int 90, .int 65⟩ := by
  rfl

example : firstParse "2024-02-13 10:30:00" formats = some ⟨2024, 2, 13, 10, 30, 0, 0⟩ := by rfl
example : firstParse "13-Feb-2024 10:30:00" formats = some ⟨2024, 2, 13, 10, 30, 0, 0⟩ := by rfl
example : firstParse "02/13/2024 10:30:00" formats = some ⟨2024, 2, 13, 10, 30, 0, 0⟩ := by rfl
example : firstParse "2024-02-13 10:30:00.5" formats = some ⟨2024, 2, 13, 10, 30, 0, 500000⟩ := by
  rfl
example : firstParse "05-04-2024 10:00:00" formats = some ⟨2024, 4, 5, 10, 0, 0, 0⟩ := by rfl
example : firstParse "garbage" formats = none := by rfl
example : firstParse "2024-02-30 10:00:00" formats = none := by rfl

theorem firstParse_of_prefix_fail (s : String) :
    ∀ (fs1 fs2 : List (List Directive)) (f : List Directive) (dt : PyDateTime),
      (∀ g ∈ fs1, strptime5 s g = Option.none) → strptime5 s f = some dt →
      firstParse s (fs1 ++ f :: fs2) = some dt := by
  intro fs1
  induction fs1 with
  | nil =>
      intro fs2 f dt _ hf
      simp [firstParse, hf]
  | cons g gs ih =>
      intro fs2 f dt hall hf
      have hg : strptime5 s g = Option.none := hall g (by simp)
      have hrest : ∀ g2 ∈ gs, strptime5 s g2 = Option.none := fun g2 h2 => hall g2 (by simp [h2])
      simp only [List.cons_append, firstParse, hg]
      exact ih fs2 f dt hrest hf

theorem firstParse_of_all_fail (s : String) :
    ∀ fs : List (List Directive), (∀ g ∈ fs, strptime5 s g = Option.none) →
      firstParse s fs = Option.none := by
  intro fs
  induction fs with
  | nil => intro _; rfl
  | cons g gs ih =>
      intro hall
      have hg : strptime5 s g = Option.none := hall g (by simp)
      simp only [firstParse, hg]
      exact ih fun g2 h2 => hall g2 (by simp [h2])

/-- C5: `parse_order_time` tries the five accepted formats in the fixed
order `%Y-%m-%d %H:%M:%S.%f`, `%Y-%m-%d %H:%M:%S`, `%d-%m-%Y %H:%M:%S`,
`%m/%d/%Y %H:%M:%S`, `%d-%b-%Y %H:%M:%S` and returns the point in time
parsed by the first matching format; for a string matching none of the five
it returns null and logs exactly one warning. -/
theorem parse_order_time_first_format :
    formats = [fmtYmdHMSf, fmtYmdHMS, fmtDmYHMS, fmtMdYHMS, fmtDbYHMS] ∧
    (∀ (s : String) (fs1 fs2 : List (List Directive)) (f : List Directive) (dt : PyDateTime),
      formats = fs1 ++ f :: fs2 →
      (∀ g ∈ fs1, strptime5 s g = Option.none) →
      strptime5 s f = some dt →
      parse_order_time (.str s) = .ok (some dt, [])) ∧
    (∀ s : String, (∀ g ∈ formats, strptime5 s g = Option.none) →
      parse_order_time (.str s) =
        .ok (Option.none, ["Warning: Failed to parse timestamp \x27" ++ s ++ "\x27"])) := by
  refine ⟨rfl, ?_, ?_⟩
  · intro s fs1 fs2 f dt hsplit hfail hok
    have h1 : firstParse s formats = some dt := by
      rw [hsplit]
      exact firstParse_of_prefix_fail s fs1 fs2 f dt hfail hok
    simp [parse_order_time, h1]
  · intro s hall
    have h1 : firstParse s formats = Option.none := firstParse_of_all_fail s formats hall
    simp [parse_order_time, h1]

/-- Witness for C5: the second format wins on `"2024-02-13 10:30:00"` (the
first fails for lack of a fractional part), and an unparsable string yields
null plus exactly the one warning line. -/
theorem parse_order_time_first_format_witness :
    parse_order_time (.str "2024-02-13 10:30:00") =
      .ok (some ⟨2024, 2, 13, 10, 30, 0, 0⟩, []) ∧
    parse_order_time (.str "notatime") =
      .ok (Option.none, ["Warning: Failed to parse timestamp \x27notatime\x27"]) :=
  ⟨parse_order_time_first_format.2.1 "2024-02-13 10:30:00" [fmtYmdHMSf]
      [fmtDmYHMS, fmtMdYHMS, fmtDbYHMS] fmtYmdHMS ⟨2024, 2, 13, 10, 30, 0, 0⟩ rfl
      (by intro g hg; rw [List.mem_singleton] at hg; rw [hg]; rfl) rfl,
   parse_order_time_first_format.2.2 "notatime" (by decide)⟩

theorem lookupA_bumpWith (st : OrderMap) (n : Int) (f : OrderAgg → OrderAgg) :
    lookupA (bumpWith st n f) n = some (f ((lookupA st n).getD ⟨0, 0, 0⟩)) := by
  induction st with
  | nil => simp [bumpWith, lookupA]
  | cons hd tl ih =>
      by_cases h : hd.1 = n
      · simp [bumpWith, lookupA, h]
      · simp [bumpWith, lookupA, h, ih]

/-- C4: an order with a parsable timestamp strictly before the cutoff is
excluded from all sums (the map is returned unchanged, whatever the other
fields hold); an order with timestamp at or after the cutoff is included:
its quantity is dispatched on its upper-cased status, and for a recognized
status the per-instrument entry is bumped by the order's quantity (shown by
the `bumpWith` lookup equation). -/
theorem order_cutoff_filter :
    (∀ (cid : String) (start : PyDateTime) (st : OrderMap) (kvs : List (Key × PyVal))
       (s : String) (dt : PyDateTime),
      lookupA kvs (Key.str "OrderDateTime") = some (.str s) →
      firstParse s formats = some dt →
      dt.lt start = true →
      processOrderRecord cid start st (.dict kvs) = .ok (st, [])) ∧
    (∀ (cid : String) (start : PyDateTime) (st : OrderMap) (kvs : List (Key × PyVal))
       (s : String) (dt : PyDateTime) (v : PyVal) (n : Int) (ss : String) (qv : PyVal) (q : Int),
      lookupA kvs (Key.str "OrderDateTime") = some (.str s) →
      firstParse s formats = some dt →
      dt.lt start = false →
      lookupA kvs (Key.str "ExchangeInstrumentID") = some v →
      pyToInt v = .ok n →
      n ≠ 0 →
      lookupA kvs (Key.str "OrderStatus") = some (.str ss) →
      lookupA kvs (Key.str "OrderQuantity") = some qv →
      pyToInt qv = .ok q →
      processOrderRecord cid start st (.dict kvs) =
        .ok (applyStatus st n (strUpper ss) q, [])) ∧
    (∀ (st : OrderMap) (n : Int) (q : Int),
      lookupA (applyStatus st n "FILLED" q) n =
        some {(lookupA st n).getD ⟨0, 0, 0⟩ with
                executed := ((lookupA st n).getD ⟨0, 0, 0⟩).executed + q}) := by
  refine ⟨?_, ?_, ?_⟩
  · intro cid start st kvs s dt h1 h2 h3
    simp [processOrderRecord, parse_order_time, h1, h2, h3]
  · intro cid start st kvs s dt v n ss qv q h1 h2 h3 h4 h5 h6 h7 h8 h9
    simp [processOrderRecord, parse_order_time, pyUpper, h1, h2, h3, h4, h5, h6, h7, h8, h9]
  · intro st n q
    simp [applyStatus, lookupA_bumpWith]

/-- Witness for C4: an order timestamped exactly at the cutoff is included
(its FILLED quantity 5 lands in the sums), one timestamped one second before
is excluded. -/
theorem order_cutoff_filter_witness :
    processOrderRecord "A" dtCut []
        (.dict [(.str "OrderDateTime", .str "2024-02-13 09:00:00"),
                (.str "ExchangeInstrumentID", .int 7),
                (.str "OrderStatus", .str "Filled"),
                (.str "OrderQuantity", .int 5)]) =
      .ok ([(7, ⟨5, 0, 0⟩)], []) ∧
    processOrderRecord "A" dtCut []
        (.dict [(.str "OrderDateTime", .str "2024-02-13 08:59:59"),
                (.str "ExchangeInstrumentID", .int 7),
                (.str "OrderStatus", .str "Filled"),
                (.str "OrderQuantity", .int 5)]) =
      .ok ([], []) :=
  ⟨(order_cutoff_filter.2.1 "A" dtCut []
      [(.str "OrderDateTime", .str "2024-02-13 09:00:00"),
       (.str "ExchangeInstrumentID", .int 7),
       (.str "OrderStatus", .str "Filled"),
       (.str "OrderQuantity", .int 5)]
      "2024-02-13 09:00:00" ⟨2024, 2, 13, 9, 0, 0, 0⟩ (.int 7) 7 "Filled" (.int 5) 5
      rfl rfl rfl rfl rfl (by decide) rfl rfl rfl).trans (by rfl),
   order_cutoff_filter.1 "A" dtCut []
      [(.str "OrderDateTime", .str "2024-02-13 08:59:59"),
       (.str "ExchangeInstrumentID", .int 7),
       (.str "OrderStatus", .str "Filled"),
       (.str "OrderQuantity", .int 5)]
      "2024-02-13 08:59:59" ⟨2024, 2, 13, 8, 59, 59, 0⟩ rfl rfl rfl⟩

/-- C10: records with a zero or missing instrument id are silently dropped:
an order (with parsable, qualifying timestamp) whose `ExchangeInstrumentID`
is absent, or present but coercing to integer 0, leaves the sums unchanged
with no log line; a position or holding record whose candidate id projection
is falsy (all fields absent, empty or 0) is excluded from the normalized map
with no log line. -/
theorem zero_id_silent_drop :
    (∀ (cid : String) (start : PyDateTime) (st : OrderMap) (kvs : List (Key × PyVal))
       (s : String) (dt : PyDateTime),
      lookupA kvs (Key.str "OrderDateTime") = some (.str s) →
      firstParse s formats = some dt →
      dt.lt start = false →
      lookupA kvs (Key.str "ExchangeInstrumentID") = Option.none →
      processOrderRecord cid start st (.dict kvs) = .ok (st, [])) ∧
    (∀ (cid : String) (start : PyDateTime) (st : OrderMap) (kvs : List (Key × PyVal))
       (s : String) (dt : PyDateTime) (v : PyVal),
      lookupA kvs (Key.str "OrderDateTime") = some (.str s) →
      firstParse s formats = some dt →
      dt.lt start = false →
      lookupA kvs (Key.str "ExchangeInstrumentID") = some v →
      pyToInt v = .ok 0 →
      processOrderRecord cid start st (.dict kvs) = .ok (st, [])) ∧
    (∀ (cid : String) (st : PosMap) (kvs : List (Key × PyVal)),
      (posInstVal kvs).truthy = false →
      processPosRecord cid st (.dict kvs) = .ok (st, [])) ∧
    (∀ (cid : String) (st : HoldMap) (isin : Key) (kvs : List (Key × PyVal)),
      (holdInstVal kvs).truthy = false →
      processHoldRecord cid st (isin, .dict kvs) = .ok (st, [])) := by
  refine ⟨?_, ?_, ?_, ?_⟩
  · intro cid start st kvs s dt h1 h2 h3 h4
    simp [processOrderRecord, parse_order_time, h1, h2, h3, h4, pyToInt]
  · intro cid start st kvs s dt v h1 h2 h3 h4 h5
    simp [processOrderRecord, parse_order_time, h1, h2, h3, h4, h5]
  · intro cid st kvs h
    simp [processPosRecord, h]
  · intro cid st isin kvs h
    simp [processHoldRecord, h]

/-- Witness for C10: a qualifying order with no `ExchangeInstrumentID`, one
whose id string coerces to 0, a position record whose only candidate id is
the integer 0, and a holding record with no id fields — all dropped with no
output. -/
theorem zero_id_silent_drop_witness :
    processOrderRecord "A" dtCut []
        (.dict [(.str "OrderDateTime", .str "2024-02-13 10:30:00")]) = .ok ([], []) ∧
    processOrderRecord "A" dtCut []
        (.dict [(.str "OrderDateTime", .str "2024-02-13 10:30:00"),
                (.str "ExchangeInstrumentID", .str "0")]) = .ok ([], []) ∧
    processPosRecord "A" [] (.dict [(.str "ExchangeInstrumentID", .int 0)]) = .ok ([], []) ∧
    processHoldRecord "A" [] (.str "ISIN1", .dict [(.str "HoldingQuantity", .int 9)]) =
      .ok ([], []) :=
  ⟨zero_id_silent_drop.1 "A" dtCut [] [(.str "OrderDateTime", .str "2024-02-13 10:30:00")]
      "2024-02-13 10:30:00" ⟨2024, 2, 13, 10, 30, 0, 0⟩ rfl rfl rfl rfl,
   zero_id_silent_drop.2.1 "A" dtCut []
      [(.str "OrderDateTime", .str "2024-02-13 10:30:00"),
       (.str "ExchangeInstrumentID", .str "0")]
      "2024-02-13 10:30:00" ⟨2024, 2, 13, 10, 30, 0, 0⟩ (.str "0") rfl rfl rfl rfl rfl,
   zero_id_silent_drop.2.2.1 "A" [] [(.str "ExchangeInstrumentID", .int 0)] rfl,
   zero_id_silent_drop.2.2.2 "A" [] (.str "ISIN1") [(.str "HoldingQuantity", .int 9)] rfl⟩

/-- C3: the row builder resolves the display name with the `ID:<id>`
fallback when the instrument is not in the metadata lookup, defaults
Executed/Open/Rejected to the all-zero aggregate when the instrument has no
order entry, defaults Live Pos and Holding to 0 when absent from those
feeds, and computes `Remaining = Holding - Executed`; in particular the
spec's concrete scenario (target `{100: 50}`, one FILLED order of quantity
20 after the cutoff, holding quantity 80) produces exactly the row
`Target 50, Executed 20, Open 0, Rejected 0, Remaining 60`. -/
theorem row_builder_defaults :
    (∀ (stocks : List (Key × PyVal)) (om : OrderMap) (pm : PosMap) (hm : HoldMap)
       (k : Key) (tgt : PyVal) (n : Int) (hqi : Int),
      pyToInt k.toVal = .ok n →
      lookupA stocks (Key.int n) = Option.none →
      ((lookupA hm n).map HoldEntry.quantity).getD (.int 0) = .int hqi →
      build_instrument_row stocks om pm hm k tgt =
        .ok ⟨.str ("ID:" ++ k.display), tgt,
             ((lookupA om n).getD ⟨0, 0, 0⟩).executed,
             ((lookupA om n).getD ⟨0, 0, 0⟩).opnQty,
             ((lookupA om n).getD ⟨0, 0, 0⟩).rejQty,
             ((lookupA pm n).map PosEntry.quantity).getD (.int 0),
             .int hqi,
             .int (hqi - ((lookupA om n).getD ⟨0, 0, 0⟩).executed)⟩) ∧
    generate_summary_data_sell [("A", cfg100)] dtCut [] [("A", apiScenario)] =
      .ok ([("A", [⟨.str "ID:100", .int 50, 20, 0, 0, .int 0, .int 80, .int 60⟩])], []) := by
  refine ⟨?_, by rfl⟩
  intro stocks om pm hm k tgt n hqi h1 h2 h3
  simp [build_instrument_row, h1, h2, h3, pyGet, lookupA, pySub]

/-- Witness for C3: an instrument absent from every feed and from the
metadata table gets the synthetic name and all-zero defaults. -/
theorem row_builder_defaults_witness :
    build_instrument_row [] [] [] [] (Key.int 7) (.int 3) =
      .ok ⟨.str "ID:7", .int 3, 0, 0, 0, .int 0, .int 0, .int 0⟩ :=
  (row_builder_defaults.1 [] [] [] [] (Key.int 7) (.int 3) 7 0 rfl rfl rfl).trans (by rfl)

theorem reduceAdd_ints (vs : List PyVal) :
    ∀ a : Int, (∀ v ∈ vs, v.isInt = true) →
      reduceAdd (.int a) vs = .ok (.int (a + (vs.map PyVal.intOf).sum)) := by
  induction vs with
  | nil => intro a _; simp [reduceAdd]
  | cons v tl ih =>
      intro a hall
      have hv : v.isInt = true := hall v (by simp)
      match v, hv with
      | .int m, _ =>
          have := ih (a + m) fun w hw => hall w (by simp [hw])
          simp only [reduceAdd, pyAdd, List.map_cons, List.sum_cons, this, PyVal.intOf]
          rw [Int.add_assoc]

theorem colSum_ints (vs : List PyVal) (hall : ∀ v ∈ vs, v.isInt = true) :
    colSum vs = .ok (.int ((vs.map PyVal.intOf).sum)) := by
  have hfilter : vs.filter (fun v => !v.isNone) = vs := by
    rw [List.filter_eq_self]
    intro v hv
    have := hall v hv
    match v, this with
    | .int m, _ => rfl
  unfold colSum
  rw [hfilter]
  match vs, hall with
  | [], _ => rfl
  | v :: tl, hall =>
      have hv : v.isInt = true := hall v (by simp)
      match v, hv with
      | .int m, _ =>
          have := reduceAdd_ints tl m fun w hw => hall w (by simp [hw])
          simp [this, PyVal.intOf]

/-- C1 (amended): for a client with at least one instrument row whose
object-typed cells are all integers, the appended totals row equals the
column-wise sum of the instrument rows in every numeric column.  (The
zero-row case of the original claim is refuted by the counterexample: there
the column access itself raises, see `totals_row_empty_cex`.) -/
theorem totals_row_sums :
    ∀ rows : List SummaryRow, rows ≠ [] →
    (∀ r ∈ rows,
      (r.target.isInt && r.livePos.isInt && r.holdingQty.isInt && r.remaining.isInt) = true) →
    totals_row rows =
      .ok ⟨.str "TOTAL",
           .int ((rows.map fun r => r.target.intOf).sum),
           .int ((rows.map fun r => r.executed).sum),
           .int ((rows.map fun r => r.opnQty).sum),
           .int ((rows.map fun r => r.rejQty).sum),
           .int ((rows.map fun r => r.livePos.intOf).sum),
           .int ((rows.map fun r => r.holdingQty.intOf).sum),
           .int ((rows.map fun r => r.remaining.intOf).sum)⟩ := by
  intro rows hne hnum
  have hts : ∀ r ∈ rows, (SummaryRow.target r).isInt = true := by
    intro r hr; have := hnum r hr; simp [Bool.and_eq_true] at this; exact this.1.1.1
  have hlv : ∀ r ∈ rows, (SummaryRow.livePos r).isInt = true := by
    intro r hr; have := hnum r hr; simp [Bool.and_eq_true] at this; exact this.1.1.2
  have hhd : ∀ r ∈ rows, (SummaryRow.holdingQty r).isInt = true := by
    intro r hr; have := hnum r hr; simp [Bool.and_eq_true] at this; exact this.1.2
  have hrm : ∀ r ∈ rows, (SummaryRow.remaining r).isInt = true := by
    intro r hr; have := hnum r hr; simp [Bool.and_eq_true] at this; exact this.2
  have h1 := colSum_ints (rows.map SummaryRow.target)
    (by intro v hv; rw [List.mem_map] at hv; obtain ⟨r, hr, hrv⟩ := hv; exact hrv ▸ hts r hr)
  have h2 := colSum_ints (rows.map fun r => PyVal.int r.executed)
    (by intro v hv; rw [List.mem_map] at hv; obtain ⟨r, _, hrv⟩ := hv; exact hrv ▸ rfl)
  have h3 := colSum_ints (rows.map fun r => PyVal.int r.opnQty)
    (by intro v hv; rw [List.mem_map] at hv; obtain ⟨r, _, hrv⟩ := hv; exact hrv ▸ rfl)
  have h4 := colSum_ints (rows.map fun r => PyVal.int r.rejQty)
    (by intro v hv; rw [List.mem_map] at hv; obtain ⟨r, _, hrv⟩ := hv; exact hrv ▸ rfl)
  have h5 := colSum_ints (rows.map SummaryRow.livePos)
    (by intro v hv; rw [List.mem_map] at hv; obtain ⟨r, hr, hrv⟩ := hv; exact hrv ▸ hlv r hr)
  have h6 := colSum_ints (rows.map SummaryRow.holdingQty)
    (by intro v hv; rw [List.mem_map] at hv; obtain ⟨r, hr, hrv⟩ := hv; exact hrv ▸ hhd r hr)
  have h7 := colSum_ints (rows.map SummaryRow.remaining)
    (by intro v hv; rw [List.mem_map] at hv; obtain ⟨r, hr, hrv⟩ := hv; exact hrv ▸ hrm r hr)
  match rows, hne with
  | r0 :: rtl, _ =>
      simp only [totals_row, h1, h2, h3, h4, h5, h6, h7, List.map_map]
      rfl

/-- Witness for C1's amended theorem at a two-row client. -/
theorem totals_row_sums_witness :
    totals_row [⟨.str "ID:100", .int 50, 20, 0, 0, .int 0, .int 80, .int 60⟩,
                ⟨.str "X", .int 7, 5, 1, 2, .int 3, .int 10, .int 5⟩] =
      .ok ⟨.str "TOTAL", .int 57, .int 25, .int 1, .int 2, .int 3, .int 90, .int 65⟩ :=
  (totals_row_sums
      [⟨.str "ID:100", .int 50, 20, 0, 0, .int 0, .int 80, .int 60⟩,
       ⟨.str "X", .int 7, 5, 1, 2, .int 3, .int 10, .int 5⟩]
      (List.cons_ne_nil _ _) (by intro r hr; fin_cases hr <;> rfl)).trans (by rfl)

/-- Counterexample for C1: for a client with zero instrument rows the export
does not produce an all-zero totals row — the first column access on the
column-less empty DataFrame raises a `KeyError` and the export fails. -/
theorem totals_row_empty_cex :
    totals_row [] = .error "KeyError: Target" ∧
    export_totals [("A", [])] = .error "KeyError: Target" :=
  ⟨rfl, rfl⟩

/-- C2 (amended): a feed response whose status tag is not `success` is
indeed treated as an empty feed for that client (all three normalizers
return the empty map with no logs and no error); but the second half of the
claim fails: a malformed payload under a `success` tag can escape the
aggregation stage — a holdings result missing the nested
`RMSHoldings`/`Holdings` structure raises a `KeyError` that is caught
nowhere (see `aggregation_malformed_holdings_cex` for the whole-run
abort). -/
theorem aggregation_nonsuccess_empty :
    (∀ (cid : String) (kvs : List (Key × PyVal)),
      isSuccessVal ((lookupA kvs (Key.str "type")).getD .none) = false →
      processPositionsResp cid (.dict kvs) = .ok ([], [])) ∧
    (∀ (cid : String) (kvs : List (Key × PyVal)),
      isSuccessVal ((lookupA kvs (Key.str "type")).getD .none) = false →
      processHoldingsResp cid (.dict kvs) = .ok ([], [])) ∧
    (∀ (cid : String) (start : PyDateTime) (kvs : List (Key × PyVal)),
      isSuccessVal ((lookupA kvs (Key.str "type")).getD .none) = false →
      processOrdersResp cid start (.dict kvs) = .ok ([], [])) ∧
    (∀ cid : String,
      processHoldingsResp cid respHoldMalformed = .error "KeyError: RMSHoldings") := by
  refine ⟨?_, ?_, ?_, ?_⟩
  · intro cid kvs h
    simp [processPositionsResp, pyGet, h]
  · intro cid kvs h
    simp [processHoldingsResp, pyGet, h]
  · intro cid start kvs h
    simp [processOrdersResp, pyGet, pyIter, h, foldRecords]
  · intro cid
    rfl

/-- Witness for C2's amended theorem: a `failure`-tagged response is an
empty feed for each of the three normalizers, and the malformed holdings
payload raises. -/
theorem aggregation_nonsuccess_empty_witness :
    processPositionsResp "A" respFail = .ok ([], []) ∧
    processHoldingsResp "A" respFail = .ok ([], []) ∧
    processOrdersResp "A" dtCut respFail = .ok ([], []) ∧
    processHoldingsResp "A" respHoldMalformed = .error "KeyError: RMSHoldings" :=
  ⟨aggregation_nonsuccess_empty.1 "A" [(.str "type", .str "failure")] rfl,
   aggregation_nonsuccess_empty.2.1 "A" [(.str "type", .str "failure")] rfl,
   aggregation_nonsuccess_empty.2.2.1 "A" dtCut [(.str "type", .str "failure")] rfl,
   aggregation_nonsuccess_empty.2.2.2 "A"⟩

/-- Counterexample for C2: with a client whose holdings call returns
`{'type': 'success', 'result': {}}`, the aggregation stage raises a
`KeyError` that aborts the whole run (no per-client recovery). -/
theorem aggregation_malformed_holdings_cex :
    generate_summary_data_sell [("A", cfg100)] dtCut [] [("A", apiMalformedHold)] =
      .error "KeyError: RMSHoldings" :=
  rfl

/-- C6 (amended): numeric fields of position and holding records default to
zero when absent, but a present non-coercible value is NOT logged-and-
skipped: the source never coerces `Quantity` / `HoldingQuantity` /
`BuyAvgPrice`, so the raw value is stored verbatim in the normalized map
with no log line (see `position_noncoercible_quantity_cex`); only a failure
coercing the instrument id is logged and skips the record. -/
theorem feed_numeric_passthrough :
    (∀ (cid : String) (st : PosMap) (kvs : List (Key × PyVal)) (n : Int),
      (posInstVal kvs).truthy = true →
      pyToInt (posInstVal kvs) = .ok n →
      processPosRecord cid st (.dict kvs) =
        .ok (insertA st n
              ⟨(lookupA kvs (Key.str "TradingSymbol")).getD (.str "N/A"),
               (lookupA kvs (Key.str "Quantity")).getD (.int 0)⟩, [])) ∧
    (∀ (cid : String) (st : HoldMap) (isin : Key) (kvs : List (Key × PyVal)) (n : Int),
      (holdInstVal kvs).truthy = true →
      pyToInt (holdInstVal kvs) = .ok n →
      processHoldRecord cid st (isin, .dict kvs) =
        .ok (insertA st n
              ⟨(lookupA kvs (Key.str "HoldingQuantity")).getD (.int 0),
               (lookupA kvs (Key.str "BuyAvgPrice")).getD (.int 0)⟩, [])) ∧
    (∀ (cid : String) (st : PosMap) (kvs : List (Key × PyVal)) (e : String),
      (posInstVal kvs).truthy = true →
      pyToInt (posInstVal kvs) = .error e →
      processPosRecord cid st (.dict kvs) =
        .ok (st, ["Error processing position for " ++ cid ++ ": " ++ e])) ∧
    (∀ (cid : String) (st : HoldMap) (isin : Key) (kvs : List (Key × PyVal)) (e : String),
      (holdInstVal kvs).truthy = true →
      pyToInt (holdInstVal kvs) = .error e →
      processHoldRecord cid st (isin, .dict kvs) =
        .ok (st, ["Error processing holding for " ++ cid ++ ": " ++ e])) := by
  refine ⟨?_, ?_, ?_, ?_⟩
  · intro cid st kvs n h1 h2
    simp [processPosRecord, h1, h2]
  · intro cid st isin kvs n h1 h2
    simp [processHoldRecord, h1, h2]
  · intro cid st kvs e h1 h2
    simp [processPosRecord, h1, h2]
  · intro cid st isin kvs e h1 h2
    simp [processHoldRecord, h1, h2]

/-- Witness for C6's amended theorem: an absent `Quantity` defaults to 0; a
present string `"abc"` is stored verbatim with no log; a non-coercible id is
logged and the record skipped. -/
theorem feed_numeric_passthrough_witness :
    processPosRecord "A" [] (.dict [(.str "ExchangeInstrumentID", .int 5)]) =
      .ok ([(5, ⟨.str "N/A", .int 0⟩)], []) ∧
    processPosRecord "A" []
        (.dict [(.str "ExchangeInstrumentID", .int 5), (.str "Quantity", .str "abc")]) =
      .ok ([(5, ⟨.str "N/A", .str "abc"⟩)], []) ∧
    processHoldRecord "A" [] (.str "I1", .dict [(.str "ExchangeNSEInstrumentID", .str "xy")]) =
      .ok ([], ["Error processing holding for A: ValueError: invalid literal for int: xy"]) :=
  ⟨(feed_numeric_passthrough.1 "A" [] [(.str "ExchangeInstrumentID", .int 5)] 5
      rfl rfl).trans (by rfl),
   (feed_numeric_passthrough.1 "A" []
      [(.str "ExchangeInstrumentID", .int 5), (.str "Quantity", .str "abc")] 5
      rfl rfl).trans (by rfl),
   (feed_numeric_passthrough.2.2.2 "A" [] (.str "I1")
      [(.str "ExchangeNSEInstrumentID", .str "xy")]
      "ValueError: invalid literal for int: xy" rfl rfl).trans (by rfl)⟩

/-- Counterexample for C6: a position record with a present but
non-coercible `Quantity` (`"abc"`) is neither logged nor skipped — it lands
verbatim in the normalized per-instrument map (so it does contribute to the
feed's output), with no log line. -/
theorem position_noncoercible_quantity_cex :
    processPositionsResp "A" respPosBadQty = .ok ([(5, ⟨.str "N/A", .str "abc"⟩)], []) :=
  rfl

/-- C7 (amended): the rows of a client's summary are exactly the
successfully built rows of the configured `(instrument id, target)` pairs,
in configuration order: one row per pair whose build succeeds, no row for a
pair whose build raises (that pair is logged and dropped, see
`configured_row_dropped_cex`), and never a row for an instrument that is
absent from the configuration, whatever activity it has in the feeds. -/
theorem rows_match_config :
    (∀ (cid : String) (stocks : List (Key × PyVal)) (om : OrderMap) (pm : PosMap)
       (hm : HoldMap) (items : List (Key × PyVal)),
      (buildRows cid stocks om pm hm items).1 =
        items.filterMap fun p => exceptOk (build_instrument_row stocks om pm hm p.1 p.2)) ∧
    (∀ (cid : String) (stocks : List (Key × PyVal)) (om : OrderMap) (pm : PosMap)
       (hm : HoldMap) (items : List (Key × PyVal)),
      (∀ p ∈ items, ∃ r, build_instrument_row stocks om pm hm p.1 p.2 = .ok r) →
      (buildRows cid stocks om pm hm items).1.length = items.length) ∧
    (∀ (cid : String) (stocks : List (Key × PyVal)) (om : OrderMap) (pm : PosMap)
       (hm : HoldMap) (items : List (Key × PyVal)) (row : SummaryRow),
      row ∈ (buildRows cid stocks om pm hm items).1 →
      ∃ p ∈ items, build_instrument_row stocks om pm hm p.1 p.2 = .ok row) := by
  have hchar : ∀ (cid : String) (stocks : List (Key × PyVal)) (om : OrderMap) (pm : PosMap)
      (hm : HoldMap) (items : List (Key × PyVal)),
      (buildRows cid stocks om pm hm items).1 =
        items.filterMap fun p => exceptOk (build_instrument_row stocks om pm hm p.1 p.2) := by
    intro cid stocks om pm hm items
    induction items with
    | nil => rfl
    | cons hd tl ih =>
        match hd with
        | (k, v) =>
            simp only [buildRows, List.filterMap_cons]
            cases hb : build_instrument_row stocks om pm hm k v with
            | ok row => simp [hb, exceptOk_ok, ih]
            | error e => simp [hb, exceptOk_error, ih]
  refine ⟨hchar, ?_, ?_⟩
  · intro cid stocks om pm hm items hall
    rw [hchar]
    induction items with
    | nil => rfl
    | cons hd tl ih =>
        obtain ⟨r, hr⟩ := hall hd (by simp)
        simp only [List.filterMap_cons, hr, exceptOk_ok, List.length_cons]
        rw [ih fun p hp => hall p (by simp [hp])]
  · intro cid stocks om pm hm items row hrow
    rw [hchar] at hrow
    rw [List.mem_filterMap] at hrow
    obtain ⟨p, hp, hpe⟩ := hrow
    refine ⟨p, hp, ?_⟩
    cases hb : build_instrument_row stocks om pm hm p.1 p.2 with
    | ok r2 => rw [hb] at hpe; rw [exceptOk_ok] at hpe; rw [Option.some_inj] at hpe; rw [hpe]
    | error e => rw [hb] at hpe; rw [exceptOk_error] at hpe; exact absurd hpe (by simp)

/-- Witness for C7's amended theorem: a one-pair configuration whose build
succeeds yields exactly one row. -/
theorem rows_match_config_witness :
    (buildRows "A" [] [] [] [] [(Key.int 100, .int 50)]).1.length = 1 :=
  (rows_match_config.2.1 "A" [] [] [] [] [(Key.int 100, .int 50)]
    (by
      intro p hp
      rw [List.mem_singleton] at hp
      rw [hp]
      exact ⟨⟨.str "ID:100", .int 50, 0, 0, 0, .int 0, .int 0, .int 0⟩, rfl⟩)).trans rfl

/-- Counterexample for C7: instrument 100 is present in the client's target
configuration, yet the produced summary for the client has zero rows — the
holdings feed carries the non-numeric holding quantity `"abc"` for it, the
`remaining` subtraction raises `TypeError`, and the instrument is logged and
dropped.  The claim's "exactly one row per configured pair" is violated. -/
theorem configured_row_dropped_cex :
    generate_summary_data_sell [("A", cfg100)] dtCut [] [("A", apiBadHoldQty)] =
      .ok ([("A", [])],
        ["Error processing instrument 100 for A: TypeError: unsupported operand type for -"]) :=
  rfl

/-- C8: a client with no entry in the API-handle mapping, or whose fetch
block raises, is skipped with exactly the logged message and contributes no
entry to the run's per-client output, while the remaining clients' output is
exactly what it would be without the skipped client. -/
theorem client_skip_isolated :
    (∀ (start : PyDateTime) (stocks : List (Key × PyVal)) (apis : List (String × ClientApi))
       (cid : String) (params : PyVal),
      lookupA apis cid = Option.none →
      processClient start stocks apis cid params =
        .ok (Option.none, ["API not found for client " ++ cid])) ∧
    (∀ (start : PyDateTime) (stocks : List (Key × PyVal)) (apis : List (String × ClientApi))
       (cid : String) (params : PyVal) (api : ClientApi) (e : String),
      lookupA apis cid = some api →
      fetch3 api = .error e →
      processClient start stocks apis cid params =
        .ok (Option.none, ["Error fetching data for " ++ cid ++ ": " ++ e])) ∧
    (∀ (rest : List (String × PyVal)) (start : PyDateTime) (stocks : List (Key × PyVal))
       (apis : List (String × ClientApi)) (cid : String) (params : PyVal) (lg : List String),
      processClient start stocks apis cid params = .ok (Option.none, lg) →
      generate_summary_data_sell ((cid, params) :: rest) start stocks apis =
        Except.map (fun p => (p.1, lg ++ p.2))
          (generate_summary_data_sell rest start stocks apis)) := by
  refine ⟨?_, ?_, ?_⟩
  · intro start stocks apis cid params h
    simp [processClient, h]
  · intro start stocks apis cid params api e h1 h2
    simp [processClient, h1, h2]
  · intro rest start stocks apis cid params lg h
    simp only [generate_summary_data_sell, h]
    cases generate_summary_data_sell rest start stocks apis with
    | error e => rfl
    | ok p => rfl

/-- Witness for C8: client `A` has no API handle and is skipped with the
logged message; client `C`'s order-book call raises `boom` and is skipped;
in a two-client run the handle-less `A` leaves exactly `B`'s sheet. -/
theorem client_skip_isolated_witness :
    processClient dtCut [] [("B", apiScenario)] "A" cfg100 =
      .ok (Option.none, ["API not found for client A"]) ∧
    processClient dtCut [] [("C", apiFetchErr)] "C" cfg100 =
      .ok (Option.none, ["Error fetching data for C: boom"]) ∧
    generate_summary_data_sell [("A", cfg100), ("B", cfg100)] dtCut [] [("B", apiScenario)] =
      .ok ([("B", [⟨.str "ID:100", .int 50, 20, 0, 0, .int 0, .int 80, .int 60⟩])],
           ["API not found for client A"]) :=
  ⟨client_skip_isolated.1 dtCut [] [("B", apiScenario)] "A" cfg100 rfl,
   client_skip_isolated.2.1 dtCut [] [("C", apiFetchErr)] "C" cfg100 apiFetchErr "boom" rfl rfl,
   (client_skip_isolated.2.2 [("B", cfg100)] dtCut [] [("B", apiScenario)] "A" cfg100
      ["API not found for client A"]
      (client_skip_isolated.1 dtCut [] [("B", apiScenario)] "A" cfg100 rfl)).trans (by rfl)⟩

/-- C9: the aggregation is deterministic — it is a pure function of the
client configuration, cutoff, metadata and API responses (two runs on
identical inputs are definitionally equal), and its output depends on the
API-handle mapping only through per-client lookup (two mappings with equal
lookups give equal runs). -/
theorem generate_summary_deterministic :
    (∀ (cd : List (String × PyVal)) (t : PyDateTime) (sd : List (Key × PyVal))
       (ca : List (String × ClientApi)),
      generate_summary_data_sell cd t sd ca = generate_summary_data_sell cd t sd ca) ∧
    (∀ (cd : List (String × PyVal)) (t : PyDateTime) (sd : List (Key × PyVal))
       (ca1 ca2 : List (String × ClientApi)),
      (∀ cid : String, lookupA ca1 cid = lookupA ca2 cid) →
      generate_summary_data_sell cd t sd ca1 = generate_summary_data_sell cd t sd ca2) := by
  refine ⟨fun _ _ _ _ => rfl, ?_⟩
  intro cd t sd ca1 ca2 h
  induction cd with
  | nil => rfl
  | cons hd tl ih =>
      obtain ⟨cid, params⟩ := hd
      have hpc : processClient t sd ca1 cid params = processClient t sd ca2 cid params := by
        unfold processClient
        rw [h cid]
      simp only [generate_summary_data_sell, hpc, ih]

/-- Witness for C9: two API-handle mappings listing the same two handles in
opposite orders produce the same run. -/
theorem generate_summary_deterministic_witness :
    generate_summary_data_sell [("A", cfg100), ("B", cfg100)] dtCut []
        [("A", apiScenario), ("B", apiFetchErr)] =
      generate_summary_data_sell [("A", cfg100), ("B", cfg100)] dtCut []
        [("B", apiFetchErr), ("A", apiScenario)] :=
  generate_summary_deterministic.2 [("A", cfg100), ("B", cfg100)] dtCut []
    [("A", apiScenario), ("B", apiFetchErr)] [("B", apiFetchErr), ("A", apiScenario)]
    (by
      intro cid
      by_cases hA : "A" = cid
      · by_cases hB : "B" = cid
        · exact absurd (hA.trans hB.symm) (by decide)
        · simp [lookupA, hA, hB]
      · by_cases hB : "B" = cid
        · simp [lookupA, hA, hB]
        · simp [lookupA, hA, hB])
